import Mathlib

/-!
Shallow embedding of the credential and token subsystem of the mediaapi
repository (src/mediaapi/config.py, src/mediaapi/security.py,
src/mediaapi/routers/user.py), together with theorems settling the
claims about it.

Conventions of the embedding:
* Python exceptions become an `Except PyError` result.
* Absolute time is an integer number of seconds (`Int`); `timedelta(minutes=m)`
  is `m * 60` seconds.
* A JWT string is modelled by `TokenString`: either a string that is not a
  well-formed JWT at all (`malformed`), or a signed token carrying its claim
  set, the key and algorithm it was signed with, and a flag recording whether
  the signed part was tampered with after signing.
* The external `python-jose` library's `jwt.decode` is modelled by
  `jose_decode`: it verifies the signature first (malformed input, a
  key/algorithm mismatch, or tampering raise `JWTError`), and only then
  validates the registered `exp` claim against the current time
  (`ExpiredSignatureError` when `exp < now`; a token with no `exp` claim is
  not checked for expiry).  This is the documented and observable order of
  checks in python-jose.
* The users table row is modelled by `UserIn` (the name the source uses in
  its annotations) with exactly the columns `users_table` (database.py)
  defines: id, email, password.  The table defines no `confirmed` column,
  so the attribute read `user.confirmed` in `authenticate_user` raises
  `AttributeError` (modelled by `UserIn.confirmedAttr`), and the UPDATE
  naming `confirmed` in the confirmation endpoint raises sqlalchemy's
  `CompileError` at execution (modelled by `execute_confirm_update`).
* The external `bcrypt` library is modelled by `BcryptModel`: `checkpw`
  parses the stored hash and raises `ValueError` ("Invalid salt") when it is
  not a well-formed bcrypt hash, and otherwise reports whether the password
  matches; `wellFormedHash` abstracts the parse check and `pwMatches` the
  comparison.
-/

namespace MediaApi

/-- Python exceptions that the modelled code can raise. -/
inductive PyError where
  /-- `fastapi.HTTPException(status_code=..., detail=...)`. -/
  | httpException (status_code : Nat) (detail : String)
  /-- Python `ValueError` (raised by `bcrypt` on a malformed hash). -/
  | valueError (msg : String)
  /-- Python `KeyError` (raised by `config[env_state]` on an unknown key). -/
  | keyError
  /-- Python `AttributeError` (raised by attribute access on a fetched row
  for a column the table does not define). -/
  | attributeError (name : String)
  /-- sqlalchemy `CompileError` (raised when a statement names a column the
  table does not define). -/
  | compileError (msg : String)
deriving DecidableEq, Repr

/-- Values read from the (prefixed) environment for one `GlobalConfig`
subclass: `none` models an unset variable. -/
structure EnvVars where
  database_url : Option String := none
  db_force_roll_back : Option Bool := none
  secret_key : Option String := none
  algorithm : Option String := none
deriving DecidableEq, Repr

/-- `config.GlobalConfig`: pydantic settings with the source's defaults. -/
structure GlobalConfig where
  DATABASE_URL : Option String := none
  DB_FORCE_ROLL_BACK : Bool := false
  SECRET_KEY : String := ""
  ALGORITHM : String := ""
deriving DecidableEq, Repr

/-- Instantiating a `GlobalConfig` subclass: each field takes the value from
the environment when set, and the class default otherwise. -/
def loadGlobalConfig (e : EnvVars) : GlobalConfig :=
  { DATABASE_URL := e.database_url
    DB_FORCE_ROLL_BACK := e.db_force_roll_back.getD false
    SECRET_KEY := e.secret_key.getD ""
    ALGORITHM := e.algorithm.getD "" }

/-- `config.get_config`: looks `env_state` up in the dict
`{"dev": DevConfig, "test": TestConfig, "prod": ProdConfig}` and instantiates
the class; any other key, including the unset (`None`) state, raises
`KeyError`. -/
def get_config (env_state : Option String) (e : EnvVars) :
    Except PyError GlobalConfig :=
  match env_state with
  | some "dev" => .ok (loadGlobalConfig e)
  | some "test" => .ok (loadGlobalConfig e)
  | some "prod" => .ok (loadGlobalConfig e)
  | _ => .error .keyError

/-- `security.access_token_expire_minutes()`. -/
def access_token_expire_minutes : Int := 30

/-- `security.confirm_token_expire_minutes()`. -/
def confirm_token_expire_minutes : Int := 1440

/-- `security.JwtTypes.ACCESS.value`. -/
def JwtTypes.ACCESS : String := "access"

/-- `security.JwtTypes.CONFIRMATION.value`. -/
def JwtTypes.CONFIRMATION : String := "confirmation"

/-- The claim set of a JWT as this application uses it: the registered
claims `sub` and `exp` and the custom claim `type` (field `typ` here;
`type` is taken by Lean).  `none` models an absent claim. -/
structure JwtClaims where
  sub : Option String
  exp : Option Int
  typ : Option String
deriving DecidableEq, Repr

/-- A JWT as transmitted: either a string that is not a well-formed JWT,
or a signed token with its claims, signing key, algorithm, and a flag set
when the signed content was altered after signing. -/
inductive TokenString where
  | malformed (raw : String)
  | signed (claims : JwtClaims) (key : String) (alg : String) (tampered : Bool)
deriving DecidableEq, Repr

/-- Errors raised by `jose.jwt.decode`. -/
inductive JoseError where
  | expiredSignatureError
  | jwtError
deriving DecidableEq, Repr

/-- Model of `jose.jwt.decode(token, key, algorithms=[algorithm])` called at
time `now`: signature verification first (a malformed string, tampering, or
a key or algorithm mismatch raises `JWTError`), then validation of the
`exp` claim (`ExpiredSignatureError` when `exp < now`; no expiry check when
the claim is absent). -/
def jose_decode (token : TokenString) (key algorithm : String) (now : Int) :
    Except JoseError JwtClaims :=
  match token with
  | .malformed _ => .error .jwtError
  | .signed claims k a tampered =>
    if tampered then .error .jwtError
    else if k ≠ key then .error .jwtError
    else if a ≠ algorithm then .error .jwtError
    else
      match claims.exp with
      | some e => if e < now then .error .expiredSignatureError else .ok claims
      | none => .ok claims

/-- `security.create_access_token(email)`, with the issuance time and the
value of the (test-injectable) `access_token_expire_minutes()` made explicit
parameters.  Rejects an empty email with HTTP 400, otherwise signs
`{"sub": email, "exp": now + minutes, "type": "access"}` with the
configured key and algorithm. -/
def create_access_token (email : String) (cfg : GlobalConfig) (now : Int)
    (expireMinutes : Int) : Except PyError TokenString :=
  if email = "" then
    .error (.httpException 400 "empty email")
  else
    .ok (.signed ⟨some email, some (now + expireMinutes * 60), some JwtTypes.ACCESS⟩
      cfg.SECRET_KEY cfg.ALGORITHM false)

/-- `security.create_confirmation_token(email)`, with the issuance time and
the value of the (test-injectable) `confirm_token_expire_minutes()` made
explicit parameters. -/
def create_confirmation_token (email : String) (cfg : GlobalConfig) (now : Int)
    (expireMinutes : Int) : Except PyError TokenString :=
  if email = "" then
    .error (.httpException 400 "empty email")
  else
    .ok (.signed ⟨some email, some (now + expireMinutes * 60), some JwtTypes.CONFIRMATION⟩
      cfg.SECRET_KEY cfg.ALGORITHM false)

/-- `security.get_subject_for_token_type(token, token_type)` at time `now`:
decode (signature, then expiry), then the `sub` presence check, then the
`type` check. -/
def get_subject_for_token_type (token : TokenString) (token_type : String)
    (cfg : GlobalConfig) (now : Int) : Except PyError String :=
  match jose_decode token cfg.SECRET_KEY cfg.ALGORITHM now with
  | .error .expiredSignatureError =>
    .error (.httpException 401 "Expired JWT token")
  | .error .jwtError =>
    .error (.httpException 401 "Could not validate credentials (JWT error)")
  | .ok payload =>
    match payload.sub with
    | none => .error (.httpException 401 "Token is missing \x27sub\x27 field")
    | some email =>
      match payload.typ with
      | none =>
        .error (.httpException 401 ("Invalid JWT type, expected: " ++ token_type))
      | some payload_type =>
        if payload_type ≠ token_type then
          .error (.httpException 401 ("Invalid JWT type, expected: " ++ token_type))
        else
          .ok email

/-- A fetched users table row (annotated `UserIn` in the source).  The
table `users_table` (database.py) defines exactly the columns `id`, `email`
and `password` — in particular it defines no `confirmed` column, although
security.py reads one and routers/user.py updates one. -/
structure UserIn where
  id : Option Int := none
  email : String
  password : String
deriving DecidableEq, Repr

/-- Attribute access `row.confirmed` on a fetched users table row: the
`databases` Record exposes the row's columns as attributes, and
`users_table` has no `confirmed` column, so the access raises
`AttributeError` for every row. -/
def UserIn.confirmedAttr (_ : UserIn) : Except PyError Bool :=
  .error (.attributeError "confirmed")

/-- `database.fetch_one(select(users_table).where(email == email))`:
the first row whose email column equals `email`, or `None`. -/
def fetch_one (db : List UserIn) (email : String) : Option UserIn :=
  db.find? (fun u => u.email == email)

/-- `security.get_user(email)`: raises HTTP 401 on an empty email, otherwise
returns the row found (or `None`). -/
def get_user (db : List UserIn) (email : String) :
    Except PyError (Option UserIn) :=
  if email = "" then
    .error (.httpException 401 "The email value can not be empty")
  else
    .ok (fetch_one db email)

/-- Model of the external `bcrypt` library: `wellFormedHash` is the parse of
the stored hash (salt extraction), `pwMatches` the keyed comparison on a
well-formed hash. -/
structure BcryptModel where
  pwMatches : String → String → Bool
  wellFormedHash : String → Bool

/-- Model of `bcrypt.checkpw(password, hashed)`: raises
`ValueError("Invalid salt")` when the stored hash is not a well-formed
bcrypt hash, otherwise reports whether the password matches. -/
def checkpw (b : BcryptModel) (password hashed : String) : Except PyError Bool :=
  if b.wellFormedHash hashed then .ok (b.pwMatches password hashed)
  else .error (.valueError "Invalid salt")

/-- `security.verify_password(plain_password, hashed_password)`: delegates to
`bcrypt.checkpw` with no exception handling of its own. -/
def verify_password (b : BcryptModel) (plain_password hashed_password : String) :
    Except PyError Bool :=
  checkpw b plain_password hashed_password

/-- `security.authenticate_user(email, password)`: repository lookup (absent
user raises 401 "Invalid user or password"), then password verification
(mismatch raises the identical 401 "Invalid user or password"), then the
confirmation gate `if not user.confirmed:` — whose attribute read
`user.confirmed` comes first, and raises `AttributeError` because the
users table defines no such column; the 401 unconfirmed branch and the
`return user` after it are therefore unreachable. -/
def authenticate_user (b : BcryptModel) (db : List UserIn)
    (email password : String) : Except PyError UserIn :=
  match get_user db email with
  | .error e => .error e
  | .ok none => .error (.httpException 401 "Invalid user or password")
  | .ok (some user) =>
    match verify_password b password user.password with
    | .error e => .error e
    | .ok ok =>
      if ok = false then
        .error (.httpException 401 "Invalid user or password")
      else
        match UserIn.confirmedAttr user with
        | .error e => .error e
        | .ok confirmed =>
          if confirmed = false then
            .error (.httpException 401 "The user has not confirmed the email")
          else
            .ok user

/-- `security.get_user_from_a_jwt(token)` at time `now`: validate the token
with expected type "access", then look the subject up; an absent user
raises 401 "Could not find user for this user". -/
def get_user_from_a_jwt (db : List UserIn) (cfg : GlobalConfig) (now : Int)
    (token : TokenString) : Except PyError UserIn :=
  match get_subject_for_token_type token JwtTypes.ACCESS cfg now with
  | .error e => .error e
  | .ok email =>
    match get_user db email with
    | .error e => .error e
    | .ok none => .error (.httpException 401 "Could not find user for this user")
    | .ok (some user) => .ok user

/-- Executing the row update of the confirmation endpoint,
`users_table.update().where(email == email).values(confirmed=True)`:
`users_table` has no `confirmed` column, so sqlalchemy statement
compilation raises `CompileError` ("Unconsumed column names: confirmed")
at `database.execute` for every email, before any row is touched. -/
def execute_confirm_update (_ : List UserIn) (_ : String) :
    Except PyError (List UserIn) :=
  .error (.compileError "Unconsumed column names: confirmed")

/-- `routers.user.confirm_email(token)` at time `now`, with the database
state passed explicitly: validate the token with expected type
"confirmation", execute the update, and return the success detail together
with the new state. -/
def confirm_email (cfg : GlobalConfig) (now : Int) (db : List UserIn)
    (token : TokenString) : Except PyError (String × List UserIn) :=
  match get_subject_for_token_type token JwtTypes.CONFIRMATION cfg now with
  | .error e => .error e
  | .ok email =>
    match execute_confirm_update db email with
    | .error e => .error e
    | .ok db2 => .ok ("User confirmed.", db2)

/-! ## Theorems -/

/-- C3: for every non-empty subject and both purposes, issuing a token with a
positive ttl and validating it with the same expected purpose, at a time
before expiry and under the same signing configuration, succeeds and returns
exactly the issued subject. -/
theorem C3_round_trip (email : String) (cfg : GlobalConfig) (now ttl vnow : Int)
    (atok ctok : TokenString)
    (hne : email ≠ "") (hpos : 0 < ttl) (hval : vnow < now + ttl * 60)
    (ha : create_access_token email cfg now ttl = .ok atok)
    (hc : create_confirmation_token email cfg now ttl = .ok ctok) :
    get_subject_for_token_type atok JwtTypes.ACCESS cfg vnow = .ok email ∧
    get_subject_for_token_type ctok JwtTypes.CONFIRMATION cfg vnow = .ok email := by
  have hnexp : ¬ (now + ttl * 60 < vnow) := not_lt.mpr hval.le
  simp only [create_access_token, if_neg hne, Except.ok.injEq] at ha
  simp only [create_confirmation_token, if_neg hne, Except.ok.injEq] at hc
  subst ha
  subst hc
  constructor
  · simp [get_subject_for_token_type, jose_decode, hnexp, JwtTypes.ACCESS]
  · simp [get_subject_for_token_type, jose_decode, hnexp, JwtTypes.CONFIRMATION]

/-- Witness for C3 at subject "a@x.com", ttl 30 minutes, validation 60
seconds after issuance. -/
theorem C3_round_trip_witness :
    get_subject_for_token_type
      (.signed ⟨some "a@x.com", some (0 + 30 * 60), some "access"⟩ "k" "HS256" false)
      JwtTypes.ACCESS { SECRET_KEY := "k", ALGORITHM := "HS256" } 60 = .ok "a@x.com" ∧
    get_subject_for_token_type
      (.signed ⟨some "a@x.com", some (0 + 30 * 60), some "confirmation"⟩ "k" "HS256" false)
      JwtTypes.CONFIRMATION { SECRET_KEY := "k", ALGORITHM := "HS256" } 60 = .ok "a@x.com" :=
  C3_round_trip "a@x.com" { SECRET_KEY := "k", ALGORITHM := "HS256" } 0 30 60 _ _
    (by decide) (by decide) (by decide) (by rfl) (by rfl)

/-- C1 (counterexample): issuing an Access token for "a@x.com" with ttl -1
minute (the value the test suite injects for expiry tests) and validating it
while expecting the Confirmation purpose fails with the expiry error, not
with the wrong-purpose error — so cross-purpose validation does not always
fail with WrongPurpose. -/
theorem C1_counterexample :
    create_access_token "a@x.com" { SECRET_KEY := "k", ALGORITHM := "HS256" } 0 (-1) =
      .ok (.signed ⟨some "a@x.com", some (-60), some "access"⟩ "k" "HS256" false) ∧
    get_subject_for_token_type
      (.signed ⟨some "a@x.com", some (-60), some "access"⟩ "k" "HS256" false)
      JwtTypes.CONFIRMATION { SECRET_KEY := "k", ALGORITHM := "HS256" } 0 =
      .error (.httpException 401 "Expired JWT token") ∧
    (PyError.httpException 401 "Expired JWT token" ≠
      PyError.httpException 401 ("Invalid JWT type, expected: " ++ JwtTypes.CONFIRMATION)) := by
  refine ⟨by rfl, by rfl, by decide⟩

/-- C1 (amended): for every non-empty subject and every ttl, a token issued
with purpose Access and validated while expecting Confirmation fails with
the wrong-purpose error whenever validation happens while the token is
unexpired, and symmetrically for the reverse; moreover a token issued for
one purpose is never accepted when the other purpose is expected, at any
validation time. -/
theorem C1_purpose_isolation (email : String) (cfg : GlobalConfig)
    (now ttl : Int) (atok ctok : TokenString)
    (hne : email ≠ "")
    (ha : create_access_token email cfg now ttl = .ok atok)
    (hc : create_confirmation_token email cfg now ttl = .ok ctok) :
    ((∀ vnow, vnow ≤ now + ttl * 60 →
        get_subject_for_token_type atok JwtTypes.CONFIRMATION cfg vnow =
          .error (.httpException 401 "Invalid JWT type, expected: confirmation")) ∧
      (∀ vnow s, get_subject_for_token_type atok JwtTypes.CONFIRMATION cfg vnow ≠ .ok s)) ∧
    ((∀ vnow, vnow ≤ now + ttl * 60 →
        get_subject_for_token_type ctok JwtTypes.ACCESS cfg vnow =
          .error (.httpException 401 "Invalid JWT type, expected: access")) ∧
      (∀ vnow s, get_subject_for_token_type ctok JwtTypes.ACCESS cfg vnow ≠ .ok s)) := by
  simp only [create_access_token, if_neg hne, Except.ok.injEq] at ha
  simp only [create_confirmation_token, if_neg hne, Except.ok.injEq] at hc
  subst ha
  subst hc
  refine ⟨⟨?_, ?_⟩, ?_, ?_⟩
  · intro vnow hv
    simp [get_subject_for_token_type, jose_decode, not_lt.mpr hv,
      JwtTypes.ACCESS, JwtTypes.CONFIRMATION]
  · intro vnow s
    rcases lt_or_le (now + ttl * 60) vnow with hlt | hle
    · simp [get_subject_for_token_type, jose_decode, hlt]
    · simp [get_subject_for_token_type, jose_decode, not_lt.mpr hle,
        JwtTypes.ACCESS, JwtTypes.CONFIRMATION]
  · intro vnow hv
    simp [get_subject_for_token_type, jose_decode, not_lt.mpr hv,
      JwtTypes.ACCESS, JwtTypes.CONFIRMATION]
  · intro vnow s
    rcases lt_or_le (now + ttl * 60) vnow with hlt | hle
    · simp [get_subject_for_token_type, jose_decode, hlt]
    · simp [get_subject_for_token_type, jose_decode, not_lt.mpr hle,
        JwtTypes.ACCESS, JwtTypes.CONFIRMATION]

/-- Witness for C1 (amended) at subject "a@x.com", ttl 30 minutes,
validation 60 seconds after issuance. -/
theorem C1_purpose_isolation_witness :
    get_subject_for_token_type
      (.signed ⟨some "a@x.com", some (0 + 30 * 60), some "access"⟩ "k" "HS256" false)
      JwtTypes.CONFIRMATION { SECRET_KEY := "k", ALGORITHM := "HS256" } 60 =
      .error (.httpException 401 "Invalid JWT type, expected: confirmation") ∧
    get_subject_for_token_type
      (.signed ⟨some "a@x.com", some (0 + 30 * 60), some "confirmation"⟩ "k" "HS256" false)
      JwtTypes.ACCESS { SECRET_KEY := "k", ALGORITHM := "HS256" } 60 =
      .error (.httpException 401 "Invalid JWT type, expected: access") :=
  ⟨(C1_purpose_isolation "a@x.com" { SECRET_KEY := "k", ALGORITHM := "HS256" } 0 30 _ _
      (by decide) (by rfl) (by rfl)).1.1 60 (by decide),
    (C1_purpose_isolation "a@x.com" { SECRET_KEY := "k", ALGORITHM := "HS256" } 0 30 _ _
      (by decide) (by rfl) (by rfl)).2.1 60 (by decide)⟩

/-- C2: the validator reports the error of the first failing check, in the
order signature, expiry, subject presence, purpose: (1) a malformed token,
or a signed token that is tampered or whose key or algorithm does not match
the configuration, yields the JWT-error response whatever its claims — in
particular a tampered-and-expired token reports the signature error, not key
expiry; (2) a correctly signed token whose exp claim is in the past yields
the expiry error whatever its subject and type claims; (3) a correctly
signed, unexpired token without a sub claim yields the missing-subject
error; (4) a correctly signed, unexpired token with a subject but with a
missing or non-matching type claim yields the wrong-type error. -/
theorem C2_error_order (cfg : GlobalConfig) (token_type : String) (now : Int) :
    (∀ raw, get_subject_for_token_type (.malformed raw) token_type cfg now =
        .error (.httpException 401 "Could not validate credentials (JWT error)")) ∧
    (∀ claims k a tampered, (tampered = true ∨ k ≠ cfg.SECRET_KEY ∨ a ≠ cfg.ALGORITHM) →
        get_subject_for_token_type (.signed claims k a tampered) token_type cfg now =
          .error (.httpException 401 "Could not validate credentials (JWT error)")) ∧
    (∀ claims e, claims.exp = some e → e < now →
        get_subject_for_token_type (.signed claims cfg.SECRET_KEY cfg.ALGORITHM false)
          token_type cfg now = .error (.httpException 401 "Expired JWT token")) ∧
    (∀ claims, claims.sub = none → (∀ e, claims.exp = some e → now ≤ e) →
        get_subject_for_token_type (.signed claims cfg.SECRET_KEY cfg.ALGORITHM false)
          token_type cfg now =
          .error (.httpException 401 "Token is missing \x27sub\x27 field")) ∧
    (∀ claims s, claims.sub = some s → (∀ e, claims.exp = some e → now ≤ e) →
        (claims.typ = none ∨ ∃ t, claims.typ = some t ∧ t ≠ token_type) →
        get_subject_for_token_type (.signed claims cfg.SECRET_KEY cfg.ALGORITHM false)
          token_type cfg now =
          .error (.httpException 401 ("Invalid JWT type, expected: " ++ token_type))) := by
  refine ⟨?_, ?_, ?_, ?_, ?_⟩
  · intro raw
    simp [get_subject_for_token_type, jose_decode]
  · rintro ⟨sub, exp, typ⟩ k a tampered (ht | hk | halg)
    · subst ht
      simp [get_subject_for_token_type, jose_decode]
    · simp [get_subject_for_token_type, jose_decode, hk]
    · by_cases ht : tampered = true
      · subst ht
        simp [get_subject_for_token_type, jose_decode]
      · simp at ht
        subst ht
        simp [get_subject_for_token_type, jose_decode, halg]
  · rintro ⟨sub, exp, typ⟩ e hexp hlt
    simp only [JwtClaims.exp] at hexp
    subst hexp
    simp [get_subject_for_token_type, jose_decode, hlt]
  · rintro ⟨sub, exp, typ⟩ hsub hexp
    simp only [JwtClaims.sub] at hsub
    subst hsub
    match exp with
    | none =>
      simp [get_subject_for_token_type, jose_decode]
    | some e =>
      have := hexp e rfl
      simp [get_subject_for_token_type, jose_decode, not_lt.mpr this]
  · rintro ⟨sub, exp, typ⟩ s hsub hexp htyp
    simp only [JwtClaims.sub] at hsub
    subst hsub
    match exp with
    | none =>
      rcases htyp with hnone | ⟨t, hsome, hne⟩
      · simp only [JwtClaims.typ] at hnone
        subst hnone
        simp [get_subject_for_token_type, jose_decode]
      · simp only [JwtClaims.typ] at hsome
        subst hsome
        simp [get_subject_for_token_type, jose_decode, hne]
    | some e =>
      have hle := hexp e rfl
      rcases htyp with hnone | ⟨t, hsome, hne⟩
      · simp only [JwtClaims.typ] at hnone
        subst hnone
        simp [get_subject_for_token_type, jose_decode, not_lt.mpr hle]
      · simp only [JwtClaims.typ] at hsome
        subst hsome
        simp [get_subject_for_token_type, jose_decode, not_lt.mpr hle, hne]

/-- Witness for C2: a tampered token that is also expired and missing its
sub claim reports the signature error. -/
theorem C2_error_order_witness :
    get_subject_for_token_type (.signed ⟨none, some (-60), some "access"⟩ "k" "HS256" true)
      JwtTypes.ACCESS { SECRET_KEY := "k", ALGORITHM := "HS256" } 0 =
      .error (.httpException 401 "Could not validate credentials (JWT error)") :=
  (C2_error_order { SECRET_KEY := "k", ALGORITHM := "HS256" } JwtTypes.ACCESS 0).2.1
    ⟨none, some (-60), some "access"⟩ "k" "HS256" true (Or.inl rfl)

/-- C4: authentication with an email that is absent from the repository and
authentication with a known email but a non-matching password raise the
identical error: the same exception kind (HTTPException), the same status
code (401) and the same detail message ("Invalid user or password"), so the
two failure causes are indistinguishable to the caller. -/
theorem C4_enumeration_resistance (b : BcryptModel) (db : List UserIn)
    (absentEmail pw1 knownEmail pw2 : String) (u : UserIn)
    (h1 : absentEmail ≠ "") (h2 : knownEmail ≠ "")
    (habsent : fetch_one db absentEmail = none)
    (hknown : fetch_one db knownEmail = some u)
    (hwf : b.wellFormedHash u.password = true)
    (hwrong : b.pwMatches pw2 u.password = false) :
    authenticate_user b db absentEmail pw1 =
      .error (.httpException 401 "Invalid user or password") ∧
    authenticate_user b db knownEmail pw2 =
      .error (.httpException 401 "Invalid user or password") := by
  constructor
  · simp [authenticate_user, get_user, h1, habsent]
  · simp [authenticate_user, get_user, verify_password, checkpw, h2, hknown, hwf, hwrong]

/-- Witness for C4: a one-user repository, an unknown email, and the known
email with a wrong password. -/
theorem C4_enumeration_resistance_witness :
    authenticate_user
      { pwMatches := fun p h => h == "$2b$" ++ p ++ "#",
        wellFormedHash := fun h => h.take 4 == "$2b$" }
      [{ id := some 1, email := "known@x.com", password := "$2b$secret#" }]
      "nobody@x.com" "pw" = .error (.httpException 401 "Invalid user or password") ∧
    authenticate_user
      { pwMatches := fun p h => h == "$2b$" ++ p ++ "#",
        wellFormedHash := fun h => h.take 4 == "$2b$" }
      [{ id := some 1, email := "known@x.com", password := "$2b$secret#" }]
      "known@x.com" "wrongpw" = .error (.httpException 401 "Invalid user or password") :=
  C4_enumeration_resistance
    { pwMatches := fun p h => h == "$2b$" ++ p ++ "#",
      wellFormedHash := fun h => h.take 4 == "$2b$" }
    [{ id := some 1, email := "known@x.com", password := "$2b$secret#" }]
    "nobody@x.com" "pw" "known@x.com" "wrongpw"
    { id := some 1, email := "known@x.com", password := "$2b$secret#" }
    (by decide) (by decide) (by rfl) (by rfl) (by rfl) (by rfl)

/-- C5 (code behavior at the failing input): the users table defines no
`confirmed` column, so for a registered user authenticating with the
correct password the attribute read `user.confirmed` (security.py:173)
raises AttributeError — the claimed 401 "The user has not confirmed the
email" outcome is unreachable.  With a wrong password the same user still
gets the 401 invalid-credentials error, so the crash occurs only after the
password has been verified. -/
theorem C5_failing_input :
    authenticate_user
      { pwMatches := fun p h => h == "$2b$" ++ p ++ "#",
        wellFormedHash := fun h => h.take 4 == "$2b$" }
      [{ id := some 1, email := "new@x.com", password := "$2b$secret#" }]
      "new@x.com" "secret" = .error (.attributeError "confirmed") ∧
    ((.error (.attributeError "confirmed") : Except PyError UserIn) ≠
      .error (.httpException 401 "The user has not confirmed the email")) ∧
    authenticate_user
      { pwMatches := fun p h => h == "$2b$" ++ p ++ "#",
        wellFormedHash := fun h => h.take 4 == "$2b$" }
      [{ id := some 1, email := "new@x.com", password := "$2b$secret#" }]
      "new@x.com" "wrongpw" =
      .error (.httpException 401 "Invalid user or password") := by
  refine ⟨by rfl, ?_, by rfl⟩
  intro h
  injection h with h
  exact PyError.noConfusion h

/-- C6 (counterexample): a validly signed, unexpired token whose sub claim is
the empty string and whose type matches is accepted, and validation returns
the empty subject — it does not fail with the missing-subject error as the
claim states. -/
theorem C6_counterexample :
    get_subject_for_token_type
      (.signed ⟨some "", some 100, some "access"⟩ "k" "HS256" false)
      JwtTypes.ACCESS { SECRET_KEY := "k", ALGORITHM := "HS256" } 0 = .ok "" ∧
    ((.ok "" : Except PyError String) ≠
      .error (.httpException 401 "Token is missing \x27sub\x27 field")) := by
  refine ⟨by rfl, fun h => Except.noConfusion h⟩

/-- C6 (amended): for every token whose signature and expiry are valid, if
the sub claim is absent validation fails with the missing-subject error; a
sub claim that is present is returned as the successful result whenever the
type claim matches, even when it is the empty string. -/
theorem C6_subject_check (cfg : GlobalConfig) (now : Int) (claims : JwtClaims)
    (token_type : String)
    (hexp : ∀ e, claims.exp = some e → now ≤ e) :
    (claims.sub = none →
      get_subject_for_token_type (.signed claims cfg.SECRET_KEY cfg.ALGORITHM false)
        token_type cfg now =
        .error (.httpException 401 "Token is missing \x27sub\x27 field")) ∧
    (∀ s, claims.sub = some s → claims.typ = some token_type →
      get_subject_for_token_type (.signed claims cfg.SECRET_KEY cfg.ALGORITHM false)
        token_type cfg now = .ok s) := by
  obtain ⟨sub, exp, typ⟩ := claims
  constructor
  · intro hsub
    simp only [JwtClaims.sub] at hsub
    subst hsub
    match exp with
    | none =>
      simp [get_subject_for_token_type, jose_decode]
    | some e =>
      have hle := hexp e rfl
      simp [get_subject_for_token_type, jose_decode, not_lt.mpr hle]
  · intro s hsub htyp
    simp only [JwtClaims.sub] at hsub
    simp only [JwtClaims.typ] at htyp
    subst hsub
    subst htyp
    match exp with
    | none =>
      simp [get_subject_for_token_type, jose_decode]
    | some e =>
      have hle := hexp e rfl
      simp [get_subject_for_token_type, jose_decode, not_lt.mpr hle]

/-- Witness for C6 (amended): a signed unexpired token without sub is
rejected with the missing-subject error, and one with the empty-string sub
and matching type is accepted. -/
theorem C6_subject_check_witness :
    get_subject_for_token_type
      (.signed ⟨none, some 100, some "access"⟩ "k" "HS256" false)
      "access" { SECRET_KEY := "k", ALGORITHM := "HS256" } 0 =
      .error (.httpException 401 "Token is missing \x27sub\x27 field") ∧
    get_subject_for_token_type
      (.signed ⟨some "", some 100, some "access"⟩ "k" "HS256" false)
      "access" { SECRET_KEY := "k", ALGORITHM := "HS256" } 0 = .ok "" :=
  ⟨(C6_subject_check { SECRET_KEY := "k", ALGORITHM := "HS256" } 0
      ⟨none, some 100, some "access"⟩ "access"
      (by intro e he; cases he; decide)).1 (by rfl),
    (C6_subject_check { SECRET_KEY := "k", ALGORITHM := "HS256" } 0
      ⟨some "", some 100, some "access"⟩ "access"
      (by intro e he; cases he; decide)).2 "" (by rfl) (by rfl)⟩

/-- C7 (counterexample): `verify_password` called with a stored string that
is not a well-formed bcrypt hash propagates bcrypt's ValueError instead of
returning false — it does throw on a malformed hash. -/
theorem C7_counterexample :
    verify_password
      { pwMatches := fun p h => h == "$2b$" ++ p ++ "#",
        wellFormedHash := fun h => h.take 4 == "$2b$" }
      "pw" "not-a-bcrypt-hash" = .error (.valueError "Invalid salt") ∧
    ((.error (.valueError "Invalid salt") : Except PyError Bool) ≠ .ok false) := by
  refine ⟨by rfl, fun h => Except.noConfusion h⟩

/-- C7 (amended): `verify_password` returns bcrypt's boolean comparison
result on a well-formed stored hash; on a malformed stored hash it raises
(propagates) bcrypt's ValueError rather than returning false — the function
installs no exception handling of its own. -/
theorem C7_verify_password (b : BcryptModel) (plain hashed : String) :
    (b.wellFormedHash hashed = true →
      verify_password b plain hashed = .ok (b.pwMatches plain hashed)) ∧
    (b.wellFormedHash hashed = false →
      verify_password b plain hashed = .error (.valueError "Invalid salt")) := by
  constructor <;> intro h <;> simp [verify_password, checkpw, h]

/-- Witness for C7 (amended): a well-formed stored hash with a matching
password, and a malformed stored hash. -/
theorem C7_verify_password_witness :
    verify_password
      { pwMatches := fun p h => h == "$2b$" ++ p ++ "#",
        wellFormedHash := fun h => h.take 4 == "$2b$" }
      "secret" "$2b$secret#" = .ok true ∧
    verify_password
      { pwMatches := fun p h => h == "$2b$" ++ p ++ "#",
        wellFormedHash := fun h => h.take 4 == "$2b$" }
      "secret" "plainhash" = .error (.valueError "Invalid salt") :=
  ⟨(C7_verify_password
      { pwMatches := fun p h => h == "$2b$" ++ p ++ "#",
        wellFormedHash := fun h => h.take 4 == "$2b$" }
      "secret" "$2b$secret#").1 (by rfl),
    (C7_verify_password
      { pwMatches := fun p h => h == "$2b$" ++ p ++ "#",
        wellFormedHash := fun h => h.take 4 == "$2b$" }
      "secret" "plainhash").2 (by rfl)⟩

/-- C8 (counterexample): loading the configuration for the "dev" state with
no environment values set succeeds, yielding a configuration whose signing
key and algorithm are both the empty string — the process does start with an
empty key and algorithm, contrary to the claim. -/
theorem C8_counterexample :
    get_config (some "dev") {} =
      .ok { DATABASE_URL := none, DB_FORCE_ROLL_BACK := false,
            SECRET_KEY := "", ALGORITHM := "" } := by
  rfl

/-- C8 (amended): configuration loading never validates the signing key or
the algorithm: every recognized ENV_STATE ("dev", "test", "prod") yields a
configuration whose SECRET_KEY and ALGORITHM silently default to the empty
string when unset; loading fails at startup (KeyError) exactly when
ENV_STATE is unset or unrecognized. -/
theorem C8_config_no_validation (e : EnvVars) :
    (get_config (some "dev") e = .ok (loadGlobalConfig e) ∧
      get_config (some "test") e = .ok (loadGlobalConfig e) ∧
      get_config (some "prod") e = .ok (loadGlobalConfig e)) ∧
    (e.secret_key = none → (loadGlobalConfig e).SECRET_KEY = "") ∧
    (e.algorithm = none → (loadGlobalConfig e).ALGORITHM = "") ∧
    get_config none e = .error .keyError := by
  refine ⟨⟨rfl, rfl, rfl⟩, ?_, ?_, rfl⟩
  · intro h
    simp [loadGlobalConfig, h]
  · intro h
    simp [loadGlobalConfig, h]

/-- Witness for C8 (amended): the empty environment. -/
theorem C8_config_no_validation_witness :
    (get_config (some "dev") {} = .ok (loadGlobalConfig {}) ∧
      get_config (some "test") {} = .ok (loadGlobalConfig {}) ∧
      get_config (some "prod") {} = .ok (loadGlobalConfig {})) ∧
    (loadGlobalConfig {}).SECRET_KEY = "" ∧
    (loadGlobalConfig {}).ALGORITHM = "" ∧
    get_config none {} = .error .keyError :=
  ⟨(C8_config_no_validation {}).1,
    (C8_config_no_validation {}).2.1 (by rfl),
    (C8_config_no_validation {}).2.2.1 (by rfl),
    (C8_config_no_validation {}).2.2.2⟩

/-- C9: identifying a user from a valid access token never reads any
confirmed state: the users table records none, the identification path
performs no `confirmed` attribute access, and a validly signed, unexpired
Access token for the email of a stored (hence nowhere-marked-confirmed)
user yields that user's row — never an unconfirmed-account error. -/
theorem C9_jwt_identification_ignores_confirmed (db : List UserIn) (u : UserIn)
    (cfg : GlobalConfig) (now ttl vnow : Int) (tok : TokenString)
    (hne : u.email ≠ "")
    (hfound : fetch_one db u.email = some u)
    (hiss : create_access_token u.email cfg now ttl = .ok tok)
    (hval : vnow ≤ now + ttl * 60) :
    get_user_from_a_jwt db cfg vnow tok = .ok u := by
  simp only [create_access_token, if_neg hne, Except.ok.injEq] at hiss
  subst hiss
  simp [get_user_from_a_jwt, get_subject_for_token_type, jose_decode,
    not_lt.mpr hval, JwtTypes.ACCESS, get_user, hne, hfound]

/-- Witness for C9: a one-user repository and a fresh access token for that
user. -/
theorem C9_jwt_identification_ignores_confirmed_witness :
    get_user_from_a_jwt
      [{ id := some 1, email := "new@x.com", password := "$2b$secret#" }]
      { SECRET_KEY := "k", ALGORITHM := "HS256" } 60
      (.signed ⟨some "new@x.com", some (0 + 30 * 60), some "access"⟩ "k" "HS256" false) =
      .ok { id := some 1, email := "new@x.com", password := "$2b$secret#" } :=
  C9_jwt_identification_ignores_confirmed
    [{ id := some 1, email := "new@x.com", password := "$2b$secret#" }]
    { id := some 1, email := "new@x.com", password := "$2b$secret#" }
    { SECRET_KEY := "k", ALGORITHM := "HS256" } 0 30 60 _
    (by decide) (by rfl) (by rfl) (by decide)

/-- C10 (code behavior at the failing input): the confirm update names the
`confirmed` column the users table does not define, so for a validly
signed, unexpired Confirmation token — here one whose subject matches no
row — `database.execute` raises CompileError ("Unconsumed column names:
confirmed") and the claimed "User confirmed." success response is
unreachable.  Identification from an access token for the same absent
subject raises the 401 user-not-found error, as the claim's contrast
describes. -/
theorem C10_failing_input :
    confirm_email { SECRET_KEY := "k", ALGORITHM := "HS256" } 60
      [{ id := some 1, email := "other@x.com", password := "$2b$secret#" }]
      (.signed ⟨some "gone@x.com", some (0 + 30 * 60), some "confirmation"⟩ "k" "HS256" false) =
      .error (.compileError "Unconsumed column names: confirmed") ∧
    ((.error (.compileError "Unconsumed column names: confirmed") :
        Except PyError (String × List UserIn)) ≠
      .ok ("User confirmed.",
        [{ id := some 1, email := "other@x.com", password := "$2b$secret#" }])) ∧
    get_user_from_a_jwt
      [{ id := some 1, email := "other@x.com", password := "$2b$secret#" }]
      { SECRET_KEY := "k", ALGORITHM := "HS256" } 60
      (.signed ⟨some "gone@x.com", some (0 + 30 * 60), some "access"⟩ "k" "HS256" false) =
      .error (.httpException 401 "Could not find user for this user") :=
  ⟨by rfl, fun h => Except.noConfusion h, by rfl⟩

end MediaApi
